import Mathlib

/-!
Verification of the Data-Quality-Checker repository: a shallow embedding of
`src/dqcheck/profiler.py` (`DataProfiler`) and `src/dqcheck/validators.py`
(`DataValidator`, `ValidationResult`), together with theorems settling the
spec claims about them.

A pandas `DataFrame` is embedded as an ordered list of named columns; each
column (`Series`) carries its dtype through a typed constructor.  Missing
values (`NaN` / `None`) are `Option.none`.  pandas semantics that the code
relies on are embedded explicitly at each use site:
  * `NaN` comparisons (`series < m`, `series > m`) are `false`;
  * `fillna(1)` replaces `none` by `1` (`Option.getD`);
  * `duplicated` treats two missing values as equal;
  * `nunique` and `value_counts` drop missing values;
  * `min`/`max`/`mean`/`median`/`std` skip missing values and are absent
    (`none`) on an all-missing column.
The statistical library routines that the spec ranks as exact-semantics
collaborators and that have no closed rational form (sample standard
deviation, regex matching) are passed in as function parameters (`stdFn`,
`re`), never fixed by the embedding.  `memory_usage_bytes` of `summary()` is
a memory-layout quantity and is outside the embedding.
-/

namespace DQ

/-- A single (non-missing) cell value of a DataFrame column. -/
inductive Val
  | num (q : ℚ)
  | str (s : String)
  | bool (b : Bool)
  | dt (t : ℤ)
deriving Repr, DecidableEq

instance : BEq Val := ⟨fun a b => decide (a = b)⟩

instance : LawfulBEq Val where
  eq_of_beq h := of_decide_eq_true h
  rfl := by simp [BEq.beq]

/-- A pandas `Series`: the constructor records the dtype, missing entries are
`none` (int64 and bool series cannot hold missing values in pandas). -/
inductive Series
  | ints (vs : List ℤ)
  | floats (vs : List (Option ℚ))
  | bools (vs : List Bool)
  | strs (vs : List (Option String))
  | datetimes (vs : List (Option ℤ))
  | categories (vs : List (Option String))
deriving Repr, DecidableEq

/-- A pandas `DataFrame`: ordered named columns. -/
abbrev Table := List (String × Series)

/-- `str(series.dtype)`. -/
def dtypeName : Series → String
  | .ints _ => "int64"
  | .floats _ => "float64"
  | .bools _ => "bool"
  | .strs _ => "object"
  | .datetimes _ => "datetime64[ns]"
  | .categories _ => "category"

/-- `pd.api.types.is_numeric_dtype` (bool counts as numeric in pandas). -/
def is_numeric_dtype : Series → Bool
  | .ints _ => true
  | .floats _ => true
  | .bools _ => true
  | _ => false

/-- `pandas.api.types.is_string_dtype` restricted to the dtypes of the model. -/
def is_string_dtype : Series → Bool
  | .strs _ => true
  | _ => false

/-- `DataProfiler.is_categorical_dtype` (the deprecation shim): dtype name is
`category`. -/
def is_categorical_dtype (s : Series) : Bool := dtypeName s == "category"

/-- `pandas.api.types.is_integer_dtype`. -/
def is_integer_dtype : Series → Bool
  | .ints _ => true
  | _ => false

/-- `pandas.api.types.is_float_dtype`. -/
def is_float_dtype : Series → Bool
  | .floats _ => true
  | _ => false

/-- `pandas.api.types.is_bool_dtype`. -/
def is_bool_dtype : Series → Bool
  | .bools _ => true
  | _ => false

/-- The column values as generic cells (`none` = missing), forgetting dtype. -/
def toVals : Series → List (Option Val)
  | .ints vs => vs.map (fun z => some (.num (z : ℚ)))
  | .floats vs => vs.map (Option.map .num)
  | .bools vs => vs.map (fun b => some (.bool b))
  | .strs vs => vs.map (Option.map .str)
  | .datetimes vs => vs.map (Option.map .dt)
  | .categories vs => vs.map (Option.map .str)

/-- The column values as rationals, for numeric dtypes (pandas arithmetic on a
bool series uses `False = 0`, `True = 1`); only consulted behind an
`is_numeric_dtype` guard, mirroring the code. -/
def numsOf : Series → List (Option ℚ)
  | .ints vs => vs.map (fun z => some (z : ℚ))
  | .floats vs => vs
  | .bools vs => vs.map (fun b => some (if b then 1 else 0))
  | _ => []

/-- The non-missing numeric values of a numeric column. -/
def nonNullNums (s : Series) : List ℚ := (numsOf s).filterMap id

/-- Number of rows of a series. -/
def seriesLen (s : Series) : ℕ := (toVals s).length

/-- `series.isna().sum()`. -/
def nullCountS (s : Series) : ℕ := (toVals s).countP (fun v => v.isNone)

/-- First-occurrence deduplication, as `pandas.Series.unique` orders it. -/
def uniqList {α : Type} [BEq α] (l : List α) : List α :=
  l.foldl (fun acc v => if acc.contains v then acc else acc ++ [v]) []

/-- `series.nunique()`: distinct non-missing values. -/
def nuniqueS (s : Series) : ℕ := (uniqList ((toVals s).filterMap id)).length

/-- `series[mask].tolist()`: the entries of `vals` at the `true` positions of
`mask`. -/
def maskSelect {α : Type} (vals : List α) (mask : List Bool) : List α :=
  (vals.zip mask).filterMap (fun p => if p.2 then some p.1 else none)

/-- `series.duplicated(keep=False)` as a boolean mask: an entry is flagged iff
its value occurs at least twice (missing values compare equal to each other,
as in pandas). -/
def dupAllMask (vals : List (Option Val)) : List Bool :=
  vals.map (fun v => decide (2 ≤ vals.count v))

def dupAfterFirstMaskAux (seen : List (Option Val)) :
    List (Option Val) → List Bool
  | [] => []
  | v :: rest => seen.contains v :: dupAfterFirstMaskAux (v :: seen) rest

/-- `series.duplicated(keep='first')` as a boolean mask: an entry is flagged
iff an equal value occurs at an earlier position. -/
def dupAfterFirstMask (vals : List (Option Val)) : List Bool :=
  dupAfterFirstMaskAux [] vals

/-- `series.min()` over the non-missing values (`none` when there are none). -/
def listMin (l : List ℚ) : Option ℚ :=
  l.foldl (fun acc q => match acc with
    | none => some q
    | some a => some (min a q)) none

/-- `series.max()` over the non-missing values (`none` when there are none). -/
def listMax (l : List ℚ) : Option ℚ :=
  l.foldl (fun acc q => match acc with
    | none => some q
    | some a => some (max a q)) none

/-- Arithmetic mean (the callers guard against the empty list). -/
def listMean (l : List ℚ) : ℚ := l.sum / l.length

/-- `series.mean()` shape used where pandas would yield `NaN` on empty input:
`none` on the empty list. -/
def listMeanOpt (l : List ℚ) : Option ℚ :=
  if l.isEmpty then none else some (listMean l)

/-- pandas median of a nonempty list: middle element of the sorted list, or
the mean of the two middle elements. -/
def medianOf (l : List ℚ) : ℚ :=
  let sorted := l.insertionSort (fun a b => a ≤ b)
  let n := sorted.length
  if n % 2 = 1 then sorted.getD (n / 2) 0
  else (sorted.getD (n / 2 - 1) 0 + sorted.getD (n / 2) 0) / 2

/-- Round to the nearest integer, ties to even: the rounding of Python's
built-in `round`. -/
def roundHalfToEven (x : ℚ) : ℤ :=
  let f : ℤ := ⌊x⌋
  let r : ℚ := x - f
  if r < 1/2 then f
  else if 1/2 < r then f + 1
  else if f % 2 = 0 then f else f + 1

/-- Python's `round(x, 2)`. -/
def round2 (x : ℚ) : ℚ := (roundHalfToEven (x * 100) : ℚ) / 100

/-- A single-quote character as a string (used in the messages the Python
code builds with quoted column names). -/
def sq : String := String.mk [Char.ofNat 39]

/-- `str(x)` on a cell, as `series.astype(str)` produces it (`NaN` becomes
the string `nan`). -/
def valToStr : Option Val → String
  | none => "nan"
  | some (.num q) => toString q
  | some (.str s) => s
  | some (.bool b) => if b then "True" else "False"
  | some (.dt t) => toString t

/-- `df[name]`: first column with the given name, if any. -/
def findCol (t : Table) (name : String) : Option Series :=
  (t.find? (fun p => p.1 == name)).map Prod.snd

/-- The `KeyError` raised by `df[name]` on a missing column. -/
def keyErrMsg (name : String) : String := "KeyError: " ++ sq ++ name ++ sq

/-- The `ValueError` message of `DataValidator.column`. -/
def colNotFoundMsg (name : String) : String :=
  "Column " ++ sq ++ name ++ sq ++ " not found in DataFrame"

/-! ## Profiler (`src/dqcheck/profiler.py`) -/

/-- The dictionary built by `DataProfiler.profile_column`.  Kind-specific
fields default to `none` (key absent / value `None` in the Python dict). -/
structure ColumnProfile where
  column : String
  dtype : String
  count : ℕ
  null_count : ℕ
  /-- `round(series.isna().mean() * 100, 2)`; `none` models the `NaN` that
  pandas produces on an empty column. -/
  null_percentage : Option ℚ
  unique_count : ℕ
  min : Option ℚ := none
  max : Option ℚ := none
  mean : Option ℚ := none
  median : Option ℚ := none
  std : Option ℚ := none
  min_length : Option ℕ := none
  max_length : Option ℕ := none
  avg_length : Option ℚ := none
deriving Repr, DecidableEq

/-- `DataProfiler.profile_column` on an already-looked-up series.  `stdFn`
is the library sample standard deviation (`none` models the `NaN` pandas
returns on fewer than two values). -/
def profileSeries (stdFn : List ℚ → Option ℚ) (name : String) (s : Series) :
    ColumnProfile :=
  let vals := toVals s
  let n := vals.length
  let nullN := nullCountS s
  let base : ColumnProfile :=
    { column := name
      dtype := dtypeName s
      count := n
      null_count := nullN
      null_percentage :=
        if n = 0 then none else some (round2 ((nullN : ℚ) / (n : ℚ) * 100))
      unique_count := nuniqueS s }
  let withNum : ColumnProfile :=
    if is_numeric_dtype s then
      let nums := nonNullNums s
      { base with
        min := listMin nums
        max := listMax nums
        mean := if nums.isEmpty then none else some (round2 (listMean nums))
        median := if nums.isEmpty then none else some (medianOf nums)
        std := if nums.isEmpty then none else (stdFn nums).map round2 }
    else base
  if is_string_dtype s || (dtypeName s == "object") then
    match s with
    | .strs vs =>
      let nonNull := vs.filterMap id
      if nonNull.isEmpty then withNum
      else
        let lens := nonNull.map String.length
        { withNum with
          min_length := lens.foldl (fun acc k => min acc k) (lens.headD 0) |> some
          max_length := lens.foldl (fun acc k => max acc k) (lens.headD 0) |> some
          avg_length := some (round2 ((lens.map (fun k => (k : ℚ))).sum / (lens.length : ℚ))) }
    | _ => withNum
  else withNum

/-- `DataProfiler.profile_column`: `df[column]` raises `KeyError` on a
missing name, before any statistic is computed. -/
def profile_column (stdFn : List ℚ → Option ℚ) (t : Table) (name : String) :
    Except String ColumnProfile :=
  match findCol t name with
  | none => .error (keyErrMsg name)
  | some s => .ok (profileSeries stdFn name s)

/-- Exception-propagating list map: the semantics of a Python list
comprehension whose body may raise. -/
def mapExcept {α β ε : Type} (f : α → Except ε β) : List α → Except ε (List β)
  | [] => .ok []
  | a :: l =>
    match f a with
    | .error e => .error e
    | .ok b => (mapExcept f l).map (fun bs => b :: bs)

/-- `DataProfiler.profile_all`. -/
def profile_all (stdFn : List ℚ → Option ℚ) (t : Table) :
    Except String (List ColumnProfile) :=
  mapExcept (profile_column stdFn t) (t.map Prod.fst)

/-- The dictionary built by `DataProfiler.summary` (`memory_usage_bytes` is
memory layout, outside the embedding). -/
structure TableSummary where
  row_count : ℕ
  column_count : ℕ
  columns : List String
  total_null_count : ℕ
deriving Repr, DecidableEq

/-- `len(df)`. -/
def tableRowCount : Table → ℕ
  | [] => 0
  | c :: _ => seriesLen c.2

/-- `DataProfiler.summary`: `total_null_count` transcribes
`df.isna().sum().sum()` (per-column null counts, then summed). -/
def summary (t : Table) : TableSummary :=
  { row_count := tableRowCount t
    column_count := t.length
    columns := t.map Prod.fst
    total_null_count := (t.map (fun c => nullCountS c.2)).sum }

/-- `DataProfiler.is_partitionable_dtype` (the datetime disjunct is
commented out in the source). -/
def is_partitionable_dtype (s : Series) : Bool :=
  is_string_dtype s
  || is_categorical_dtype s
  || is_integer_dtype s
  || is_float_dtype s
  || is_bool_dtype s

/-- The guard `not self.is_partitionable_dtype(...) is False` of
`partition_recommendations`, transcribed literally: Python parses it as
`not (X is False)`, which for a boolean `X` is `X` itself. -/
def partitionNoticeCond (s : Series) : Bool :=
  !(is_partitionable_dtype s == false)

/-- Outcome of `partition_recommendations`: either the early return that
prints `Not recommended for partitioning`, or the full advisory with its
final score out of 2. -/
inductive PartitionOutcome
  | notRecommended (dtype : String)
  | proceeded (score : ℤ)
deriving Repr, DecidableEq

/-- `series.value_counts(normalize=True)`: the proportion of each distinct
non-missing value among the non-missing values. -/
def valueCountsNorm (s : Series) : List ℚ :=
  let nonNull := (toVals s).filterMap id
  (uniqList nonNull).map (fun v => (nonNull.count v : ℚ) / (nonNull.length : ℚ))

/-- `DataProfiler.partition_recommendations`, with the printed advisory
abstracted to its branch and final score.  On an empty distribution pandas
yields `NaN` for the max and mean, every `NaN` comparison is `False`, and
control falls through to the final `else` (score `+1`); the `none` branch
transcribes that. -/
def partition_recommendations (stdFn : List ℚ → Option ℚ) (t : Table)
    (column : String) : Except String PartitionOutcome :=
  match findCol t column with
  | none => .error (keyErrMsg column)
  | some s =>
    let pr := profileSeries stdFn column s
    if partitionNoticeCond s then .ok (.notRecommended pr.dtype)
    else
      let dist := valueCountsNorm s
      let cardinality := pr.unique_count
      let skewScore : ℤ :=
        match listMax dist, listMeanOpt dist with
        | some biggest, some meanProp =>
          let skew := biggest / meanProp
          if 5 < skew then -1 else if 2 < skew then 0 else 1
        | _, _ => 1
      let cardScore : ℤ :=
        if cardinality < 100 then 0
        else if cardinality < 1000 then 1
        else -1
      .ok (.proceeded (skewScore + cardScore))

/-! ## Validator (`src/dqcheck/validators.py`) -/

/-- The `ValidationResult` dataclass. -/
structure ValidationResult where
  check_name : String
  passed : Bool
  column : Option String := none
  message : String := ""
  failing_count : ℕ := 0
  failing_examples : List (Option Val) := []
deriving Repr, DecidableEq

/-- The parameters of one registered rule (the data its closure captures
besides the column cursor). -/
inductive RuleSpec
  | is_not_null
  | is_positive
  | is_in (allowed_values : List Val)
  | matches (pattern : String)
  | min_value (minimum : ℚ)
  | max_value (maximum : ℚ)
  | is_unique
deriving Repr, DecidableEq

/-- The `check_name` each registration method hard-codes. -/
def ruleName : RuleSpec → String
  | .is_not_null => "is_not_null"
  | .is_positive => "is_positive"
  | .is_in _ => "is_in"
  | .matches _ => "matches"
  | .min_value _ => "min_value"
  | .max_value _ => "max_value"
  | .is_unique => "is_unique"

/-- One queued check: the `(check_name, column, check_fn)` triple of
`DataValidator._checks`; `boundColumn` is the cursor value the closure
captured at registration. -/
structure Check where
  check_name : String
  boundColumn : Option String
  rule : RuleSpec
deriving Repr, DecidableEq

/-- The early-return result the numeric-only checks build on a non-numeric
column. -/
def notNumericResult (cn col : String) : ValidationResult :=
  { check_name := cn
    passed := false
    column := some col
    message := "Column " ++ sq ++ col ++ sq ++ " is not numeric" }

/-- The body of one check closure, after `series = self.df[col]` has
succeeded.  `re pattern text` is the library regex engine
(`Series.str.match`: match anchored at the start). -/
def evalRule (re : String → String → Bool) (col : String) (s : Series) :
    RuleSpec → ValidationResult
  | .is_not_null =>
    let vals := toVals s
    let nullMask := vals.map (fun v => v.isNone)
    let failing := nullMask.count true
    { check_name := "is_not_null"
      column := some col
      passed := decide (failing = 0)
      message := if 0 < failing
        then "Found " ++ toString failing ++ " null values"
        else "No null values"
      failing_count := failing
      failing_examples :=
        (maskSelect ((List.range vals.length).map (fun i => some (Val.num (i : ℚ)))) nullMask).take 5 }
  | .is_positive =>
    if !(is_numeric_dtype s) then notNumericResult "is_positive" col
    else
      -- `series.fillna(1) <= 0`: missing entries become `1`, hence pass.
      let mask := (numsOf s).map (fun v => decide (v.getD 1 ≤ 0))
      let failing := mask.count true
      { check_name := "is_positive"
        column := some col
        passed := decide (failing = 0)
        message := if 0 < failing
          then "Found " ++ toString failing ++ " non-positive values"
          else "All values positive"
        failing_count := failing
        failing_examples := (maskSelect (toVals s) mask).take 5 }
  | .is_in allowed =>
    let vals := toVals s
    -- `~series.isin(allowed) & series.notna()`
    let mask := vals.map (fun v => match v with
      | none => false
      | some x => !(allowed.contains x))
    let failing := mask.count true
    { check_name := "is_in"
      column := some col
      passed := decide (failing = 0)
      message := if 0 < failing
        then "Found " ++ toString failing ++ " values not in allowed list"
        else "All values valid"
      failing_count := failing
      failing_examples := (uniqList (maskSelect vals mask)).take 5 }
  | .matches pattern =>
    let vals := toVals s
    -- `series.astype(str).str.match(pattern)` then `& series.notna()`
    let matchMask := vals.map (fun v => re pattern (valToStr v))
    let mask := List.zipWith (fun m v => !m && v.isSome) matchMask vals
    let failing := mask.count true
    { check_name := "matches"
      column := some col
      passed := decide (failing = 0)
      message := if 0 < failing
        then "Found " ++ toString failing ++ " values not matching pattern"
        else "All values match pattern"
      failing_count := failing
      failing_examples := (maskSelect vals mask).take 5 }
  | .min_value m =>
    if !(is_numeric_dtype s) then notNumericResult "min_value" col
    else
      -- `series < minimum`: a `NaN` comparison is `False` in pandas.
      let mask := (numsOf s).map (fun v => match v with
        | none => false
        | some q => decide (q < m))
      let failing := mask.count true
      { check_name := "min_value"
        column := some col
        passed := decide (failing = 0)
        message := if 0 < failing
          then "Found " ++ toString failing ++ " values below " ++ toString m
          else "All values >= " ++ toString m
        failing_count := failing
        failing_examples := (maskSelect (toVals s) mask).take 5 }
  | .max_value m =>
    if !(is_numeric_dtype s) then notNumericResult "max_value" col
    else
      -- `series > maximum`: a `NaN` comparison is `False` in pandas.
      let mask := (numsOf s).map (fun v => match v with
        | none => false
        | some q => decide (m < q))
      let failing := mask.count true
      { check_name := "max_value"
        column := some col
        passed := decide (failing = 0)
        message := if 0 < failing
          then "Found " ++ toString failing ++ " values above " ++ toString m
          else "All values <= " ++ toString m
        failing_count := failing
        failing_examples := (maskSelect (toVals s) mask).take 5 }
  | .is_unique =>
    let vals := toVals s
    let mask := dupAllMask vals
    let failing := mask.count true
    { check_name := "is_unique"
      column := some col
      passed := decide (failing = 0)
      message := if 0 < failing
        then "Found " ++ toString failing ++ " duplicate values"
        else "All values unique"
      failing_count := failing
      failing_examples := (maskSelect vals (dupAfterFirstMask vals)).take 5 }

/-- Execute one queued check: every closure starts with
`series = self.df[col]`, which raises `KeyError` when the captured cursor is
`None` or names no column. -/
def runCheck (re : String → String → Bool) (t : Table) (chk : Check) :
    Except String ValidationResult :=
  match chk.boundColumn with
  | none => .error "KeyError: None"
  | some col =>
    match findCol t col with
    | none => .error (keyErrMsg col)
    | some s => .ok (evalRule re col s chk.rule)

/-- The `DataValidator` session state: the DataFrame, the check queue, and
the column cursor. -/
structure DataValidator where
  df : Table
  checks : List Check := []
  currentColumn : Option String := none
deriving Repr, DecidableEq

/-- `DataValidator.__init__`. -/
def DataValidator.init (df : Table) : DataValidator := { df := df }

/-- `DataValidator.column`: raises `ValueError` when the name is absent,
otherwise moves the cursor. -/
def DataValidator.column (v : DataValidator) (name : String) :
    Except String DataValidator :=
  if (findCol v.df name).isSome then .ok { v with currentColumn := some name }
  else .error (colNotFoundMsg name)

/-- `DataValidator._add_check`: append to the queue, capturing the current
cursor; total, it cannot fail. -/
def DataValidator.add_check (v : DataValidator) (name : String) (r : RuleSpec) :
    DataValidator :=
  { v with checks := v.checks ++ [⟨name, v.currentColumn, r⟩] }

/-- `DataValidator.is_not_null`. -/
def DataValidator.is_not_null (v : DataValidator) : DataValidator :=
  v.add_check "is_not_null" .is_not_null

/-- `DataValidator.is_positive`. -/
def DataValidator.is_positive (v : DataValidator) : DataValidator :=
  v.add_check "is_positive" .is_positive

/-- `DataValidator.is_in`. -/
def DataValidator.is_in (v : DataValidator) (allowed_values : List Val) :
    DataValidator :=
  v.add_check "is_in" (.is_in allowed_values)

/-- `DataValidator.matches`. -/
def DataValidator.matches (v : DataValidator) (pattern : String) :
    DataValidator :=
  v.add_check "matches" (.matches pattern)

/-- `DataValidator.min_value`. -/
def DataValidator.min_value (v : DataValidator) (minimum : ℚ) : DataValidator :=
  v.add_check "min_value" (.min_value minimum)

/-- `DataValidator.max_value`. -/
def DataValidator.max_value (v : DataValidator) (maximum : ℚ) : DataValidator :=
  v.add_check "max_value" (.max_value maximum)

/-- `DataValidator.is_unique`. -/
def DataValidator.is_unique (v : DataValidator) : DataValidator :=
  v.add_check "is_unique" .is_unique

/-- `DataValidator.run`: `[check_fn() for _, _, check_fn in self._checks]`. -/
def DataValidator.run (re : String → String → Bool) (v : DataValidator) :
    Except String (List ValidationResult) :=
  mapExcept (runCheck re v.df) v.checks

/-! ## Builder call sequences (for the late-binding claims) -/

/-- One fluent-chain step: a `column(name)` call or a rule registration. -/
inductive BStep
  | col (name : String)
  | rule (r : RuleSpec)
deriving Repr, DecidableEq

/-- Apply one chain step to the session (a rule registration dispatches to
the corresponding source method). -/
def applyStep (v : DataValidator) : BStep → Except String DataValidator
  | .col name => v.column name
  | .rule r => .ok (v.add_check (ruleName r) r)

/-- Run a whole fluent chain, propagating the first raised error. -/
def buildSteps (v : DataValidator) : List BStep → Except String DataValidator
  | [] => .ok v
  | s :: rest =>
    match applyStep v s with
    | .error e => .error e
    | .ok v2 => buildSteps v2 rest

/-- Number of rule registrations in a chain. -/
def ruleCountSteps : List BStep → ℕ
  | [] => 0
  | .col _ :: rest => ruleCountSteps rest
  | .rule _ :: rest => 1 + ruleCountSteps rest

/-- The cursor value current at each rule registration of a chain, starting
from cursor `cur`: the column the spec says each result must report. -/
def expectedCols (cur : Option String) : List BStep → List (Option String)
  | [] => []
  | .col n :: rest => expectedCols (some n) rest
  | .rule _ :: rest => cur :: expectedCols cur rest

/-- The queue a chain builds, starting from cursor `cur`. -/
def expectedChecks (cur : Option String) : List BStep → List Check
  | [] => []
  | .col n :: rest => expectedChecks (some n) rest
  | .rule r :: rest => ⟨ruleName r, cur, r⟩ :: expectedChecks cur rest

/-- The cursor after a chain, starting from cursor `cur`. -/
def finalCur (cur : Option String) : List BStep → Option String
  | [] => cur
  | .col n :: rest => finalCur (some n) rest
  | .rule _ :: rest => finalCur cur rest

/-- Well-formed chain: every `column` call names an existing column and every
rule registration happens under a cursor that names an existing column. -/
def okStepsB (t : Table) (cur : Option String) : List BStep → Bool
  | [] => true
  | .col n :: rest => (findCol t n).isSome && okStepsB t (some n) rest
  | .rule _ :: rest =>
    (match cur with
     | some c => (findCol t c).isSome
     | none => false) && okStepsB t cur rest

/-- The failing-example list that the spec sentence about `is_unique`
describes (refinement comparator, modelled from the spec words): up to 5
values, each taken at the *first* occurrence of a duplicate group. -/
def specUniqueExamples (vals : List (Option Val)) : List (Option Val) :=
  (maskSelect vals
    (List.zipWith (fun d f => d && !f) (dupAllMask vals) (dupAfterFirstMask vals))).take 5

/-! ## Helper lemmas -/

deriving instance DecidableEq for Except

theorem count_true_map {α : Type} (f : α → Bool) :
    ∀ l : List α, (l.map f).count true = l.countP f := by
  intro l
  induction l with
  | nil => rfl
  | cons a l ih =>
    by_cases h : f a <;>
      simp [List.count_cons, List.countP_cons, h, ih]

theorem countP_fillna_le :
    ∀ l : List (Option ℚ),
      l.countP (fun v => decide (v.getD 1 ≤ 0)) =
        (l.filterMap id).countP (fun q => decide (q ≤ 0)) := by
  intro l
  induction l with
  | nil => rfl
  | cons a l ih =>
    cases a <;> simp [List.countP_cons, List.filterMap_cons, ih]

theorem countP_opt_lt (m : ℚ) :
    ∀ l : List (Option ℚ),
      l.countP (fun v => match v with
        | none => false
        | some q => decide (q < m)) =
        (l.filterMap id).countP (fun q => decide (q < m)) := by
  intro l
  induction l with
  | nil => rfl
  | cons a l ih =>
    cases a <;> simp [List.countP_cons, List.filterMap_cons, ih]

theorem countP_opt_gt (m : ℚ) :
    ∀ l : List (Option ℚ),
      l.countP (fun v => match v with
        | none => false
        | some q => decide (m < q)) =
        (l.filterMap id).countP (fun q => decide (m < q)) := by
  intro l
  induction l with
  | nil => rfl
  | cons a l ih =>
    cases a <;> simp [List.countP_cons, List.filterMap_cons, ih]

theorem roundHalfToEven_int (z : ℤ) : roundHalfToEven (z : ℚ) = z := by
  unfold roundHalfToEven
  norm_num

theorem round2_idem (x : ℚ) : round2 (round2 x) = round2 x := by
  unfold round2
  have h : ((roundHalfToEven (x * 100) : ℚ) / 100) * 100 =
      (roundHalfToEven (x * 100) : ℚ) := by
    field_simp
  rw [h, roundHalfToEven_int]

/-! ## Claims -/

/-- C1.  The spec claims `partition_recommendations(name)` prints the
`Not recommended for partitioning` notice and returns early exactly when the
column dtype is NOT one of {text, categorical, integer, float, boolean}.
The code's guard `not self.is_partitionable_dtype(...) is False` parses as
`not (X is False)`, i.e. `X` itself, so the branch fires exactly when the
dtype IS partitionable: an int64 column gets the notice, while an excluded
datetime column proceeds to the skew/cardinality score.  This contradicts
`is_partitionable_dtype`'s own docstring, the printed message, and the
repository test that runs the advisory on an object column and expects the
`Observations:` section in the output. -/
theorem C1_partition_guard_inverted :
    (∀ s : Series, partitionNoticeCond s = is_partitionable_dtype s) ∧
    is_partitionable_dtype (Series.ints [1, 2, 3]) = true ∧
    partition_recommendations (fun _ => none) [("id", Series.ints [1, 2, 3])] "id"
      = .ok (.notRecommended "int64") ∧
    is_partitionable_dtype (Series.datetimes [some 0, some 1]) = false ∧
    partition_recommendations (fun _ => none)
        [("ts", Series.datetimes [some 0, some 1])] "ts"
      = .ok (.proceeded 1) := by
  refine ⟨?_, rfl, by decide, rfl, by with_unfolding_all decide⟩
  intro s
  cases h : is_partitionable_dtype s <;> simp [partitionNoticeCond, h]

/-- C10.  Registering any rule before any successful `column()` call
succeeds, records the bound column as `None`, and raises nothing at
registration time; the failure surfaces only when `run()` executes that
check (`df[None]` raises `KeyError`).  Stated generically over the rule
dispatch and for each of the seven source registration methods. -/
theorem C10_registration_before_column (t : Table) (r : RuleSpec)
    (re : String → String → Bool) (m1 m2 : ℚ) (al : List Val) (pat : String) :
    applyStep (DataValidator.init t) (.rule r) =
      .ok ⟨t, [⟨ruleName r, none, r⟩], none⟩ ∧
    DataValidator.run re ⟨t, [⟨ruleName r, none, r⟩], none⟩
      = .error "KeyError: None" ∧
    (DataValidator.init t).is_not_null
      = ⟨t, [⟨"is_not_null", none, .is_not_null⟩], none⟩ ∧
    (DataValidator.init t).is_unique
      = ⟨t, [⟨"is_unique", none, .is_unique⟩], none⟩ ∧
    (DataValidator.init t).is_positive
      = ⟨t, [⟨"is_positive", none, .is_positive⟩], none⟩ ∧
    (DataValidator.init t).min_value m1
      = ⟨t, [⟨"min_value", none, .min_value m1⟩], none⟩ ∧
    (DataValidator.init t).max_value m2
      = ⟨t, [⟨"max_value", none, .max_value m2⟩], none⟩ ∧
    (DataValidator.init t).is_in al
      = ⟨t, [⟨"is_in", none, .is_in al⟩], none⟩ ∧
    (DataValidator.init t).matches pat
      = ⟨t, [⟨"matches", none, .matches pat⟩], none⟩ :=
  ⟨rfl, rfl, rfl, rfl, rfl, rfl, rfl, rfl, rfl⟩

/-- C5.  Executing a numeric-only rule (`is_positive`, `min_value`,
`max_value`) bound to an existing non-numeric column never raises: `run`
produces for it a `ValidationResult` with `passed = false` whose message
says the column is not numeric. -/
theorem C5_not_numeric_never_raises (re : String → String → Bool) (t : Table)
    (name : String) (s : Series) (m1 m2 : ℚ)
    (hfind : findCol t name = some s) (hnn : is_numeric_dtype s = false) :
    runCheck re t ⟨"is_positive", some name, .is_positive⟩
      = .ok (notNumericResult "is_positive" name) ∧
    runCheck re t ⟨"min_value", some name, .min_value m1⟩
      = .ok (notNumericResult "min_value" name) ∧
    runCheck re t ⟨"max_value", some name, .max_value m2⟩
      = .ok (notNumericResult "max_value" name) ∧
    (notNumericResult "is_positive" name).passed = false ∧
    (notNumericResult "is_positive" name).message
      = "Column " ++ sq ++ name ++ sq ++ " is not numeric" := by
  refine ⟨?_, ?_, ?_, rfl, rfl⟩ <;> simp [runCheck, hfind, evalRule, hnn]

/-- Witness for C5 at a concrete object-dtype column. -/
theorem C5_witness :
    findCol [("name", Series.strs [some "a"])] "name"
      = some (Series.strs [some "a"]) ∧
    is_numeric_dtype (Series.strs [some "a"]) = false ∧
    (runCheck (fun _ _ => false) [("name", Series.strs [some "a"])]
        ⟨"is_positive", some "name", .is_positive⟩
      = .ok (notNumericResult "is_positive" "name") ∧
    runCheck (fun _ _ => false) [("name", Series.strs [some "a"])]
        ⟨"min_value", some "name", .min_value 0⟩
      = .ok (notNumericResult "min_value" "name") ∧
    runCheck (fun _ _ => false) [("name", Series.strs [some "a"])]
        ⟨"max_value", some "name", .max_value 10⟩
      = .ok (notNumericResult "max_value" "name") ∧
    (notNumericResult "is_positive" "name").passed = false ∧
    (notNumericResult "is_positive" "name").message
      = "Column " ++ sq ++ "name" ++ sq ++ " is not numeric") :=
  ⟨rfl, rfl, C5_not_numeric_never_raises _ _ _ _ 0 10 rfl rfl⟩

/-- C6.  Referencing a name absent from the table raises immediately, both
from `DataValidator.column` (`ValueError`) and from
`DataProfiler.profile_column` (`KeyError` on `df[column]`), before any check
runs and without producing any `ValidationResult` or profile. -/
theorem C6_missing_column_raises (v : DataValidator)
    (stdFn : List ℚ → Option ℚ) (name : String)
    (h : findCol v.df name = none) :
    v.column name = .error (colNotFoundMsg name) ∧
    profile_column stdFn v.df name = .error (keyErrMsg name) := by
  constructor
  · simp [DataValidator.column, h]
  · simp [profile_column, h]

/-- Witness for C6 at the spec's `nope` example. -/
theorem C6_witness :
    findCol (DataValidator.init [("id", Series.ints [1])]).df "nope" = none ∧
    ((DataValidator.init [("id", Series.ints [1])]).column "nope"
        = .error (colNotFoundMsg "nope") ∧
      profile_column (fun _ => none) (DataValidator.init [("id", Series.ints [1])]).df "nope"
        = .error (keyErrMsg "nope")) :=
  ⟨rfl, C6_missing_column_raises _ _ _ rfl⟩

/-- C3 counterexample.  The claim says a missing value counts as failing for
`min_value`/`max_value`.  On a float column holding a single missing value,
both checks pass (pandas `NaN` comparisons are `False`), so the missing
value did not trigger either check. -/
theorem C3_counterexample :
    runCheck (fun _ _ => false) [("x", Series.floats [none])]
        ⟨"min_value", some "x", .min_value 0⟩
      = .ok { check_name := "min_value", passed := true, column := some "x",
              message := "All values >= 0", failing_count := 0,
              failing_examples := [] } ∧
    runCheck (fun _ _ => false) [("x", Series.floats [none])]
        ⟨"max_value", some "x", .max_value 0⟩
      = .ok { check_name := "max_value", passed := true, column := some "x",
              message := "All values <= 0", failing_count := 0,
              failing_examples := [] } := by
  constructor <;> with_unfolding_all decide

/-- C3 amended.  `min_value(m)` fails exactly when some NON-MISSING value is
strictly below `m`, `max_value(m)` exactly when some non-missing value is
strictly above `m`; missing values never trigger either check and are not
counted in `failing_count` (`NaN` comparisons evaluate to `False`), so in
effect both checks exclude missing values just as `is_positive` does. -/
theorem C3_minmax_missing_excluded (re : String → String → Bool) (t : Table)
    (name : String) (s : Series) (m : ℚ)
    (hfind : findCol t name = some s) (hnum : is_numeric_dtype s = true) :
    (∃ r, runCheck re t ⟨"min_value", some name, .min_value m⟩ = .ok r ∧
      (r.passed = true ↔ ∀ q ∈ nonNullNums s, m ≤ q) ∧
      r.failing_count = (nonNullNums s).countP (fun q => decide (q < m))) ∧
    (∃ r, runCheck re t ⟨"max_value", some name, .max_value m⟩ = .ok r ∧
      (r.passed = true ↔ ∀ q ∈ nonNullNums s, q ≤ m) ∧
      r.failing_count = (nonNullNums s).countP (fun q => decide (m < q))) := by
  constructor
  · refine ⟨evalRule re name s (.min_value m), ?_, ?_, ?_⟩
    · simp [runCheck, hfind]
    · simp only [evalRule, hnum, Bool.not_true, Bool.false_eq_true, if_false,
        count_true_map, countP_opt_lt]
      rw [decide_eq_true_eq, List.countP_eq_zero]
      simp [nonNullNums, not_lt]
    · simp only [evalRule, hnum, Bool.not_true, Bool.false_eq_true, if_false,
        count_true_map, countP_opt_lt]
      simp [nonNullNums]
  · refine ⟨evalRule re name s (.max_value m), ?_, ?_, ?_⟩
    · simp [runCheck, hfind]
    · simp only [evalRule, hnum, Bool.not_true, Bool.false_eq_true, if_false,
        count_true_map, countP_opt_gt]
      rw [decide_eq_true_eq, List.countP_eq_zero]
      simp [nonNullNums, not_lt]
    · simp only [evalRule, hnum, Bool.not_true, Bool.false_eq_true, if_false,
        count_true_map, countP_opt_gt]
      simp [nonNullNums]

/-- Witness for the amended C3 at a concrete float column with a missing
entry. -/
theorem C3_witness :
    findCol [("age", Series.floats [some 25, some (-5), none])] "age"
      = some (Series.floats [some 25, some (-5), none]) ∧
    is_numeric_dtype (Series.floats [some 25, some (-5), none]) = true ∧
    ((∃ r, runCheck (fun _ _ => false)
          [("age", Series.floats [some 25, some (-5), none])]
          ⟨"min_value", some "age", .min_value 0⟩ = .ok r ∧
      (r.passed = true ↔
        ∀ q ∈ nonNullNums (Series.floats [some 25, some (-5), none]), 0 ≤ q) ∧
      r.failing_count =
        (nonNullNums (Series.floats [some 25, some (-5), none])).countP
          (fun q => decide (q < 0))) ∧
    (∃ r, runCheck (fun _ _ => false)
          [("age", Series.floats [some 25, some (-5), none])]
          ⟨"max_value", some "age", .max_value 0⟩ = .ok r ∧
      (r.passed = true ↔
        ∀ q ∈ nonNullNums (Series.floats [some 25, some (-5), none]), q ≤ 0) ∧
      r.failing_count =
        (nonNullNums (Series.floats [some 25, some (-5), none])).countP
          (fun q => decide (0 < q)))) :=
  ⟨rfl, rfl, C3_minmax_missing_excluded _ _ _ _ 0 rfl rfl⟩

/-- C8.  On a numeric column, `is_positive` fails exactly when some
non-missing value is `≤ 0`, and `failing_count` counts only those
non-missing values (`fillna(1)` turns every missing entry into a passing
`1` before the comparison). -/
theorem C8_is_positive_missing_pass (re : String → String → Bool) (t : Table)
    (name : String) (s : Series)
    (hfind : findCol t name = some s) (hnum : is_numeric_dtype s = true) :
    ∃ r, runCheck re t ⟨"is_positive", some name, .is_positive⟩ = .ok r ∧
      (r.passed = false ↔ ∃ q ∈ nonNullNums s, q ≤ 0) ∧
      r.failing_count = (nonNullNums s).countP (fun q => decide (q ≤ 0)) := by
  refine ⟨evalRule re name s .is_positive, ?_, ?_, ?_⟩
  · simp [runCheck, hfind]
  · simp only [evalRule, hnum, Bool.not_true, Bool.false_eq_true, if_false,
      count_true_map, countP_fillna_le]
    rw [decide_eq_false_iff_not]
    rw [← ne_eq, ← Nat.pos_iff_ne_zero, List.countP_pos_iff]
    simp [nonNullNums]
  · simp only [evalRule, hnum, Bool.not_true, Bool.false_eq_true, if_false,
      count_true_map, countP_fillna_le]
    simp [nonNullNums]

/-- Witness for C8 at the spec's `[25, -5, 30, 35, 150]` example. -/
theorem C8_witness :
    findCol [("age", Series.ints [25, -5, 30, 35, 150])] "age"
      = some (Series.ints [25, -5, 30, 35, 150]) ∧
    is_numeric_dtype (Series.ints [25, -5, 30, 35, 150]) = true ∧
    (∃ r, runCheck (fun _ _ => false)
        [("age", Series.ints [25, -5, 30, 35, 150])]
        ⟨"is_positive", some "age", .is_positive⟩ = .ok r ∧
      (r.passed = false ↔
        ∃ q ∈ nonNullNums (Series.ints [25, -5, 30, 35, 150]), q ≤ 0) ∧
      r.failing_count =
        (nonNullNums (Series.ints [25, -5, 30, 35, 150])).countP
          (fun q => decide (q ≤ 0))) :=
  ⟨rfl, rfl, C8_is_positive_missing_pass _ _ _ _ rfl rfl⟩

set_option maxRecDepth 8192 in
theorem profileSeries_numeric_fields (stdFn : List ℚ → Option ℚ)
    (name : String) (s : Series) (hnum : is_numeric_dtype s = true) :
    (profileSeries stdFn name s).min = listMin (nonNullNums s) ∧
    (profileSeries stdFn name s).max = listMax (nonNullNums s) ∧
    (profileSeries stdFn name s).mean
      = (if (nonNullNums s).isEmpty then none
         else some (round2 (listMean (nonNullNums s)))) ∧
    (profileSeries stdFn name s).median
      = (if (nonNullNums s).isEmpty then none
         else some (medianOf (nonNullNums s))) ∧
    (profileSeries stdFn name s).std
      = (if (nonNullNums s).isEmpty then none
         else (stdFn (nonNullNums s)).map round2) := by
  cases s <;>
    simp_all [profileSeries, dtypeName, is_string_dtype, is_numeric_dtype]

set_option maxRecDepth 65536 in
/-- C2 counterexample.  The claim says min, max, mean, median and std are
each rounded to 2 decimals.  On the float column `[1.111]`, `min` and
`median` come back as the unrounded `1.111`, which is not a 2-decimal
value (`round(1.111, 2) = 1.11 ≠ 1.111`). -/
theorem C2_counterexample :
    (profileSeries (fun _ => none) "score" (Series.floats [some (1111/1000)])).median
      = some (1111/1000) ∧
    (profileSeries (fun _ => none) "score" (Series.floats [some (1111/1000)])).min
      = some (1111/1000) ∧
    round2 (1111/1000) = 111/100 ∧
    (1111/1000 : ℚ) ≠ 111/100 := by
  refine ⟨?_, ?_, ?_, ?_⟩ <;> with_unfolding_all decide

/-- C2 amended.  For a numeric column, `profile_column` reports `min`, `max`
and `median` unrounded, while `mean` and `std` are rounded to 2 decimals
(2-decimal fixed points of `round2`); `mean`, `median` and `std` are absent
(`None`) when every value is missing. -/
theorem C2_profile_numeric_amended (stdFn : List ℚ → Option ℚ)
    (name : String) (s : Series) (hnum : is_numeric_dtype s = true) :
    (profileSeries stdFn name s).min = listMin (nonNullNums s) ∧
    (profileSeries stdFn name s).max = listMax (nonNullNums s) ∧
    (profileSeries stdFn name s).mean
      = (if (nonNullNums s).isEmpty then none
         else some (round2 (listMean (nonNullNums s)))) ∧
    (profileSeries stdFn name s).median
      = (if (nonNullNums s).isEmpty then none
         else some (medianOf (nonNullNums s))) ∧
    (profileSeries stdFn name s).std
      = (if (nonNullNums s).isEmpty then none
         else (stdFn (nonNullNums s)).map round2) ∧
    (∀ q, (profileSeries stdFn name s).mean = some q → round2 q = q) ∧
    (∀ q, (profileSeries stdFn name s).std = some q → round2 q = q) ∧
    (nonNullNums s = [] →
      (profileSeries stdFn name s).mean = none ∧
      (profileSeries stdFn name s).median = none ∧
      (profileSeries stdFn name s).std = none) := by
  obtain ⟨h1, h2, h3, h4, h5⟩ := profileSeries_numeric_fields stdFn name s hnum
  refine ⟨h1, h2, h3, h4, h5, ?_, ?_, ?_⟩
  · intro q hq
    rw [h3] at hq
    by_cases he : (nonNullNums s).isEmpty = true
    · rw [if_pos he] at hq; cases hq
    · rw [if_neg he] at hq
      rw [← Option.some.inj hq, round2_idem]
  · intro q hq
    rw [h5] at hq
    by_cases he : (nonNullNums s).isEmpty = true
    · rw [if_pos he] at hq; cases hq
    · rw [if_neg he] at hq
      obtain ⟨q0, _, hq0⟩ := Option.map_eq_some'.mp hq
      rw [← hq0, round2_idem]
  · intro he
    have hb : (nonNullNums s).isEmpty = true := by simp [he]
    exact ⟨by rw [h3, if_pos hb], by rw [h4, if_pos hb], by rw [h5, if_pos hb]⟩

/-- Witness for the amended C2 at a concrete float column. -/
theorem C2_witness :
    is_numeric_dtype (Series.floats [some (1/2), none]) = true ∧
    ((profileSeries (fun _ => none) "score" (Series.floats [some (1/2), none])).min
        = listMin (nonNullNums (Series.floats [some (1/2), none])) ∧
    (profileSeries (fun _ => none) "score" (Series.floats [some (1/2), none])).max
        = listMax (nonNullNums (Series.floats [some (1/2), none])) ∧
    (profileSeries (fun _ => none) "score" (Series.floats [some (1/2), none])).mean
      = (if (nonNullNums (Series.floats [some (1/2), none])).isEmpty then none
         else some (round2 (listMean (nonNullNums (Series.floats [some (1/2), none]))))) ∧
    (profileSeries (fun _ => none) "score" (Series.floats [some (1/2), none])).median
      = (if (nonNullNums (Series.floats [some (1/2), none])).isEmpty then none
         else some (medianOf (nonNullNums (Series.floats [some (1/2), none])))) ∧
    (profileSeries (fun _ => none) "score" (Series.floats [some (1/2), none])).std
      = (if (nonNullNums (Series.floats [some (1/2), none])).isEmpty then none
         else ((fun _ => (none : Option ℚ)) (nonNullNums (Series.floats [some (1/2), none]))).map round2) ∧
    (∀ q, (profileSeries (fun _ => none) "score" (Series.floats [some (1/2), none])).mean
        = some q → round2 q = q) ∧
    (∀ q, (profileSeries (fun _ => none) "score" (Series.floats [some (1/2), none])).std
        = some q → round2 q = q) ∧
    (nonNullNums (Series.floats [some (1/2), none]) = [] →
      (profileSeries (fun _ => none) "score" (Series.floats [some (1/2), none])).mean = none ∧
      (profileSeries (fun _ => none) "score" (Series.floats [some (1/2), none])).median = none ∧
      (profileSeries (fun _ => none) "score" (Series.floats [some (1/2), none])).std = none)) :=
  ⟨rfl, C2_profile_numeric_amended (fun _ => none) "score" _ rfl⟩

/-- C7 counterexample.  The claim describes `failing_examples` as up to 5
values each being the first occurrence of a duplicate group.  On `[2,2,2]`
(one duplicate group) the code returns `[2, 2]` — one entry per occurrence
AFTER the first (`duplicated(keep='first')`), not one per group. -/
theorem C7_counterexample :
    (evalRule (fun _ _ => false) "value" (Series.ints [2, 2, 2]) .is_unique).failing_examples
      = [some (Val.num 2), some (Val.num 2)] ∧
    specUniqueExamples (toVals (Series.ints [2, 2, 2])) = [some (Val.num 2)] ∧
    ([some (Val.num 2), some (Val.num 2)] : List (Option Val))
      ≠ [some (Val.num 2)] := by
  refine ⟨?_, ?_, ?_⟩ <;> with_unfolding_all decide

/-- C7 amended.  `is_unique` passes iff no value occurs more than once;
`failing_count` counts every row participating in a duplicate group; and
`failing_examples` are up to 5 values taken at the occurrences AFTER the
first within each duplicate group (so a group's value repeats once per extra
occurrence).  On `[1,2,2,3]`: `passed = False`, `failing_count = 2`,
`failing_examples = [2]`. -/
theorem C7_is_unique_amended (re : String → String → Bool) (col : String)
    (s : Series) :
    ((evalRule re col s .is_unique).passed = true ↔
      ∀ v ∈ toVals s, (toVals s).count v ≤ 1) ∧
    (evalRule re col s .is_unique).failing_count
      = (toVals s).countP (fun v => decide (2 ≤ (toVals s).count v)) ∧
    (evalRule re col s .is_unique).failing_examples
      = (maskSelect (toVals s) (dupAfterFirstMask (toVals s))).take 5 ∧
    (evalRule (fun _ _ => false) "value" (Series.ints [1, 2, 2, 3]) .is_unique).passed
      = false ∧
    (evalRule (fun _ _ => false) "value" (Series.ints [1, 2, 2, 3]) .is_unique).failing_count
      = 2 ∧
    (evalRule (fun _ _ => false) "value" (Series.ints [1, 2, 2, 3]) .is_unique).failing_examples
      = [some (Val.num 2)] := by
  refine ⟨?_, ?_, rfl, by with_unfolding_all decide, by with_unfolding_all decide,
    by with_unfolding_all decide⟩
  · simp only [evalRule, dupAllMask, count_true_map]
    rw [decide_eq_true_eq, List.countP_eq_zero]
    simp [Nat.lt_succ_iff]
  · simp [evalRule, dupAllMask, count_true_map]

theorem profileSeries_null_count (stdFn : List ℚ → Option ℚ)
    (name : String) (s : Series) :
    (profileSeries stdFn name s).null_count = nullCountS s := by
  cases s <;>
    simp [profileSeries, dtypeName, is_string_dtype, is_numeric_dtype]
  split <;> rfl

theorem findCol_nodup_mem (name : String) (s : Series) :
    ∀ t : Table, (t.map Prod.fst).Nodup → (name, s) ∈ t →
      findCol t name = some s := by
  intro t
  induction t with
  | nil => intro _ h; cases h
  | cons c rest ih =>
    intro hnodup hmem
    obtain ⟨n0, s0⟩ := c
    simp only [List.map_cons, List.nodup_cons] at hnodup
    rcases List.mem_cons.mp hmem with heq | hmem2
    · rw [show ((n0, s0) : String × Series) = (name, s) from heq.symm]
      simp [findCol]
    · have hne : (n0 == name) = false := by
        rw [beq_eq_false_iff_ne]
        intro h
        subst h
        exact hnodup.1 (by simpa using List.mem_map_of_mem Prod.fst hmem2)
      have hrec := ih hnodup.2 hmem2
      simp only [findCol, List.find?] at hrec ⊢
      rw [hne]
      exact hrec

/-- C9.  `summary().total_null_count` equals the sum over the table's
columns of the `null_count` that `profile_column` reports for that column
(stated over the per-column profile, plus the fact that, when column names
are unique, `profile_column` on each name returns exactly that profile). -/
theorem C9_total_null_count (t : Table) (stdFn : List ℚ → Option ℚ)
    (hnodup : (t.map Prod.fst).Nodup) :
    (summary t).total_null_count
      = (t.map (fun c => (profileSeries stdFn c.1 c.2).null_count)).sum ∧
    ∀ c ∈ t, profile_column stdFn t c.1 = .ok (profileSeries stdFn c.1 c.2) := by
  constructor
  · simp [summary, profileSeries_null_count]
  · intro c hc
    obtain ⟨n, s⟩ := c
    have hfind := findCol_nodup_mem n s t hnodup hc
    simp [profile_column, hfind]

/-- Witness for C9 at a concrete two-column table with one missing value per
column. -/
theorem C9_witness :
    (([("id", Series.ints [1, 2]), ("name", Series.strs [some "a", none])] : Table).map
        Prod.fst).Nodup ∧
    ((summary [("id", Series.ints [1, 2]), ("name", Series.strs [some "a", none])]).total_null_count
      = (([("id", Series.ints [1, 2]), ("name", Series.strs [some "a", none])] : Table).map
          (fun c => (profileSeries (fun _ => none) c.1 c.2).null_count)).sum ∧
    ∀ c ∈ ([("id", Series.ints [1, 2]), ("name", Series.strs [some "a", none])] : Table),
      profile_column (fun _ => none) [("id", Series.ints [1, 2]), ("name", Series.strs [some "a", none])] c.1
        = .ok (profileSeries (fun _ => none) c.1 c.2)) :=
  ⟨by decide, C9_total_null_count _ (fun _ => none) (by decide)⟩

theorem buildSteps_append_ok (t : Table) :
    ∀ (steps : List BStep) (cur : Option String) (checks : List Check),
      okStepsB t cur steps = true →
      buildSteps ⟨t, checks, cur⟩ steps
        = .ok ⟨t, checks ++ expectedChecks cur steps, finalCur cur steps⟩ := by
  intro steps
  induction steps with
  | nil =>
    intro cur checks _
    simp [buildSteps, expectedChecks, finalCur]
  | cons st rest ih =>
    intro cur checks h
    cases st with
    | col n =>
      have h1 : (findCol t n).isSome = true := by
        simp only [okStepsB, Bool.and_eq_true] at h
        exact h.1
      have h2 : okStepsB t (some n) rest = true := by
        simp only [okStepsB, Bool.and_eq_true] at h
        exact h.2
      have happ : applyStep ⟨t, checks, cur⟩ (.col n) = .ok ⟨t, checks, some n⟩ := by
        simp [applyStep, DataValidator.column, h1]
      simp only [buildSteps, happ, expectedChecks, finalCur]
      exact ih (some n) checks h2
    | rule r =>
      have h2 : okStepsB t cur rest = true := by
        simp only [okStepsB, Bool.and_eq_true] at h
        exact h.2
      have happ : applyStep ⟨t, checks, cur⟩ (.rule r)
          = .ok ⟨t, checks ++ [⟨ruleName r, cur, r⟩], cur⟩ := by
        simp [applyStep, DataValidator.add_check]
      simp only [buildSteps, happ, expectedChecks, finalCur]
      rw [show checks ++ (⟨ruleName r, cur, r⟩ :: expectedChecks cur rest)
          = (checks ++ [(⟨ruleName r, cur, r⟩ : Check)]) ++ expectedChecks cur rest by
        simp]
      exact ih cur (checks ++ [⟨ruleName r, cur, r⟩]) h2

theorem evalRule_column (re : String → String → Bool) (col : String)
    (s : Series) (r : RuleSpec) : (evalRule re col s r).column = some col := by
  cases r <;> try rfl
  all_goals (simp only [evalRule]; split <;> rfl)

theorem evalRule_check_name (re : String → String → Bool) (col : String)
    (s : Series) (r : RuleSpec) :
    (evalRule re col s r).check_name = ruleName r := by
  cases r <;> try rfl
  all_goals (simp only [evalRule]; split <;> rfl)

theorem runCheck_ok_of_valid (re : String → String → Bool) (t : Table)
    (chk : Check) (n : String) (s : Series)
    (hb : chk.boundColumn = some n) (hf : findCol t n = some s) :
    runCheck re t chk = .ok (evalRule re n s chk.rule) := by
  simp [runCheck, hb, hf]

theorem mapExcept_runCheck_ok (re : String → String → Bool) (t : Table) :
    ∀ checks : List Check,
      (∀ c ∈ checks, ∃ n s, c.boundColumn = some n ∧ findCol t n = some s) →
      ∃ rs, mapExcept (runCheck re t) checks = .ok rs ∧
        rs.map (fun r => r.column) = checks.map (fun c => c.boundColumn) ∧
        rs.map (fun r => r.check_name) = checks.map (fun c => ruleName c.rule) ∧
        rs.length = checks.length := by
  intro checks
  induction checks with
  | nil => exact fun _ => ⟨[], rfl, rfl, rfl, rfl⟩
  | cons c cs ih =>
    intro h
    obtain ⟨n, s, hb, hf⟩ := h c (by simp)
    obtain ⟨rs, hrs, hcols, hnames, hlen⟩ := ih (fun x hx => h x (by simp [hx]))
    refine ⟨evalRule re n s c.rule :: rs, ?_, ?_, ?_, ?_⟩
    · simp [mapExcept, runCheck_ok_of_valid re t c n s hb hf, hrs, Except.map]
    · simp [evalRule_column, hb, hcols]
    · simp [evalRule_check_name, hnames]
    · simp [hlen]

theorem expectedChecks_valid (t : Table) :
    ∀ (steps : List BStep) (cur : Option String),
      okStepsB t cur steps = true →
      ∀ c ∈ expectedChecks cur steps,
        ∃ n s, c.boundColumn = some n ∧ findCol t n = some s := by
  intro steps
  induction steps with
  | nil =>
    intro cur _ c hc
    simp [expectedChecks] at hc
  | cons st rest ih =>
    intro cur h c hc
    cases st with
    | col n =>
      have h2 : okStepsB t (some n) rest = true := by
        simp only [okStepsB, Bool.and_eq_true] at h
        exact h.2
      exact ih (some n) h2 c (by simpa [expectedChecks] using hc)
    | rule r =>
      cases cur with
      | none => simp [okStepsB] at h
      | some c0 =>
        simp only [okStepsB, Bool.and_eq_true] at h
        obtain ⟨h1, h2⟩ := h
        have hc2 : c = ⟨ruleName r, some c0, r⟩ ∨
            c ∈ expectedChecks (some c0) rest := by
          simpa [expectedChecks] using hc
        rcases hc2 with heq | hmem
        · obtain ⟨s, hs⟩ := Option.isSome_iff_exists.mp h1
          exact ⟨c0, s, by rw [heq], hs⟩
        · exact ih (some c0) h2 c hmem

theorem expectedChecks_map_bound :
    ∀ (steps : List BStep) (cur : Option String),
      (expectedChecks cur steps).map (fun c => c.boundColumn)
        = expectedCols cur steps := by
  intro steps
  induction steps with
  | nil => intro cur; rfl
  | cons st rest ih =>
    intro cur
    cases st with
    | col n => simp [expectedChecks, expectedCols, ih]
    | rule r => simp [expectedChecks, expectedCols, ih]

theorem expectedCols_length :
    ∀ (steps : List BStep) (cur : Option String),
      (expectedCols cur steps).length = ruleCountSteps steps := by
  intro steps
  induction steps with
  | nil => intro cur; rfl
  | cons st rest ih =>
    intro cur
    cases st with
    | col n => simp [expectedCols, ruleCountSteps, ih]
    | rule r =>
      simp [expectedCols, ruleCountSteps, ih]
      omega

/-- C4.  For every well-formed fluent chain (each `column()` call names an
existing column and every rule registration happens with a cursor set),
`run()` returns exactly one `ValidationResult` per registered rule; the
results come in registration order (the i-th result carries the i-th
registered rule's `check_name`) and each result's `column` equals the cursor
value current at that rule's registration — a later `column()` call never
rebinds earlier registrations (`expectedCols` threads the cursor through
the chain exactly once, at registration). -/
theorem C4_run_per_rule_late_binding (re : String → String → Bool)
    (t : Table) (steps : List BStep) (h : okStepsB t none steps = true) :
    ∃ v rs, buildSteps (DataValidator.init t) steps = .ok v ∧
      DataValidator.run re v = .ok rs ∧
      rs.length = ruleCountSteps steps ∧
      rs.map (fun r => r.column) = expectedCols none steps ∧
      rs.map (fun r => r.check_name)
        = (expectedChecks none steps).map (fun c => ruleName c.rule) := by
  have hbuild := buildSteps_append_ok t steps none [] h
  have hvalid := expectedChecks_valid t steps none h
  obtain ⟨rs, hrs, hcols, hnames, hlen⟩ :=
    mapExcept_runCheck_ok re t (expectedChecks none steps) hvalid
  refine ⟨⟨t, expectedChecks none steps, finalCur none steps⟩, rs, ?_, ?_, ?_, ?_, ?_⟩
  · simpa [DataValidator.init] using hbuild
  · simpa [DataValidator.run] using hrs
  · calc rs.length = (expectedChecks none steps).length := hlen
      _ = ((expectedChecks none steps).map (fun c => c.boundColumn)).length := by
            simp
      _ = (expectedCols none steps).length := by rw [expectedChecks_map_bound]
      _ = ruleCountSteps steps := expectedCols_length steps none
  · rw [hcols, expectedChecks_map_bound]
  · exact hnames

/-- Witness for C4 at a concrete chain that re-targets the cursor:
`column("id").is_not_null().is_positive().column("name").is_not_null()`. -/
theorem C4_witness :
    okStepsB [("id", Series.ints [1, 2]), ("name", Series.strs [some "a", none])]
      none
      [BStep.col "id", BStep.rule .is_not_null, BStep.rule .is_positive,
        BStep.col "name", BStep.rule .is_not_null] = true ∧
    (∃ v rs,
      buildSteps
        (DataValidator.init
          [("id", Series.ints [1, 2]), ("name", Series.strs [some "a", none])])
        [BStep.col "id", BStep.rule .is_not_null, BStep.rule .is_positive,
          BStep.col "name", BStep.rule .is_not_null] = .ok v ∧
      DataValidator.run (fun _ _ => false) v = .ok rs ∧
      rs.length = ruleCountSteps
        [BStep.col "id", BStep.rule .is_not_null, BStep.rule .is_positive,
          BStep.col "name", BStep.rule .is_not_null] ∧
      rs.map (fun r => r.column) = expectedCols none
        [BStep.col "id", BStep.rule .is_not_null, BStep.rule .is_positive,
          BStep.col "name", BStep.rule .is_not_null] ∧
      rs.map (fun r => r.check_name)
        = (expectedChecks none
            [BStep.col "id", BStep.rule .is_not_null, BStep.rule .is_positive,
              BStep.col "name", BStep.rule .is_not_null]).map
            (fun c => ruleName c.rule)) :=
  ⟨rfl, C4_run_per_rule_late_binding (fun _ _ => false) _ _ rfl⟩

end DQ
